import Mathlib

/-!
Shallow embedding of `src/savitri_app/analyze_coverage.py` (an LCOV
coverage summariser) and proofs about it.

Modelling conventions:
* Python strings are Lean `String`s; all primitive operations used by the
  script (`str.strip`, slicing `s[3:]`, `str.startswith`, `str.split(',')`,
  `int(...)`) are re-implemented below over `String.data` so that they are
  easy to reason about and agree with CPython's semantics on the inputs
  considered here (`int` is modelled for ASCII digit literals with an
  optional sign and internal underscores; `strip` for ASCII whitespace).
* Python's unbounded `int` is Lean's `Int`.
* The dictionary `files_coverage` is an insertion-ordered association list;
  assignment to an existing key replaces the value in place, as in CPython.
* Uncaught Python exceptions are modelled with `Except PyError`; a run that
  ends in `.error e` corresponds to the script dying with an uncaught
  exception `e` (KeyError / ValueError / FileNotFoundError).
* The script's `print` calls are collected into the returned list of output
  lines, in order; nothing is printed before parsing finishes, exactly as
  in the source where all `print` statements follow the `with open` block.
* Python's `f"{x:.1f}"` on `x = (hit / found) * 100` is modelled by exact
  rational rounding of `1000 * hit / found` to the nearest integer, ties to
  even; this agrees with the IEEE-double computation at every input used in
  this development.
-/

namespace Savitri

/-- One value of the `files_coverage` dict: the two counters kept per file. -/
structure FileData where
  lines_found : Int
  lines_hit : Int
deriving DecidableEq, Repr

/-- The uncaught Python exceptions the script can die with. -/
inductive PyError where
  /-- `open(filename)` failed: the input path does not exist. -/
  | fileNotFoundError : String → PyError
  /-- `files_coverage[k]` for an absent key `k` (`none` models the key `None`). -/
  | keyError : Option String → PyError
  /-- `int(s)` failed on the literal `s`. -/
  | valueError : String → PyError
deriving DecidableEq, Repr

/-- `files_coverage`: insertion-ordered dict from path to counters. -/
abbrev Dict := List (String × FileData)

/-- Dict lookup, first (= only, for parser-built dicts) matching key. -/
def dictGet (d : Dict) (k : String) : Option FileData :=
  match d with
  | [] => none
  | (k', v) :: rest => if k' = k then some v else dictGet rest k

/-- Dict assignment: replace in place if the key exists (CPython keeps the
original insertion position), otherwise append at the end. -/
def dictSet (d : Dict) (k : String) (v : FileData) : Dict :=
  match d with
  | [] => [(k, v)]
  | (k', v') :: rest => if k' = k then (k', v) :: rest else (k', v') :: dictSet rest k v

/-- The ASCII whitespace characters stripped by Python's `str.strip()`. -/
def isPySpace (c : Char) : Bool :=
  c = ' ' || c = '\t' || c = '\n' || c = '\r' || c = '\x0b' || c = '\x0c'

/-- Python `s.strip()`. -/
def pyStrip (s : String) : String :=
  String.mk (((s.data.dropWhile isPySpace).reverse.dropWhile isPySpace).reverse)

/-- Python slicing `s[n:]` (character based, like Lean's `String.drop`). -/
def strDrop (s : String) (n : Nat) : String :=
  String.mk (s.data.drop n)

/-- Is the first list a prefix of the second? (Same as `List.isPrefixOf`,
restated so that it reduces when only the pattern list is concrete.) -/
def chListPrefix : List Char → List Char → Bool
  | [], _ => true
  | _ :: _, [] => false
  | a :: as, b :: bs => a == b && chListPrefix as bs

/-- Python `s.startswith(pre)`. -/
def strStartsWith (s pre : String) : Bool :=
  chListPrefix pre.data s.data

/-- Helper for `pySplitComma`; `acc` holds the current field reversed. -/
def splitCommaAux : List Char → List Char → List String
  | [], acc => [String.mk acc.reverse]
  | c :: rest, acc =>
    if c = ',' then String.mk acc.reverse :: splitCommaAux rest []
    else splitCommaAux rest (c :: acc)

/-- Python `s.split(',')` (so `"".split(',') = [""]`, etc.). -/
def pySplitComma (s : String) : List String :=
  splitCommaAux s.data []

/-- Digits of an integer literal after the first one: Python `int` allows a
single `_` between two digits. Accumulates the value. -/
def pyDigitsAux : List Char → Nat → Option Nat
  | [], acc => some acc
  | '_' :: c :: rest, acc =>
    if c.isDigit then pyDigitsAux rest (acc * 10 + (c.toNat - 48)) else none
  | ['_'], _ => none
  | c :: rest, acc =>
    if c.isDigit then pyDigitsAux rest (acc * 10 + (c.toNat - 48)) else none

/-- A non-empty run of ASCII digits (with internal underscores) as a `Nat`. -/
def pyNat : List Char → Option Nat
  | [] => none
  | c :: rest => if c.isDigit then pyDigitsAux rest (c.toNat - 48) else none

/-- Python `int(s)`: strip whitespace, optional sign, digit run.
Returns `none` where CPython raises `ValueError`. -/
def pyInt (s : String) : Option Int :=
  match (pyStrip s).data with
  | '+' :: rest => (pyNat rest).map (fun n => (n : Int))
  | '-' :: rest => (pyNat rest).map (fun n => -(n : Int))
  | cs => (pyNat cs).map (fun n => (n : Int))

/-- The parser's local state: the dict being built and the `current_file`
variable (`none` models Python `None`). -/
structure ParseState where
  files : Dict
  current_file : Option String
deriving DecidableEq, Repr

/-- The state at the top of `analyze_lcov_file`. -/
def initState : ParseState := ⟨[], none⟩

/-- The `SF:` branch: `current_file = line[3:]` and a fresh zero entry. -/
def sfStep (s : ParseState) (path : String) : Except PyError ParseState :=
  .ok ⟨dictSet s.files path ⟨0, 0⟩, some path⟩

/-- The `DA:` branch, applied to `parts = line[3:].split(',')`. Under the
`len(parts) >= 2` guard, `parts.getD 1 ""` is `parts[1]`. As in CPython,
`int(parts[1])` is evaluated before the dict subscripts, so a bad literal
raises `ValueError` even when `current_file` is `None`. -/
def daStep (s : ParseState) (parts : List String) : Except PyError ParseState :=
  if parts.length ≥ 2 then
    match pyInt (parts.getD 1 "") with
    | none => .error (.valueError (parts.getD 1 ""))
    | some hit_count =>
      match s.current_file with
      | none => .error (.keyError none)
      | some cf =>
        match dictGet s.files cf with
        | none => .error (.keyError (some cf))
        | some d =>
          .ok ⟨dictSet s.files cf
            ⟨d.lines_found + 1, d.lines_hit + (if hit_count > 0 then 1 else 0)⟩,
            s.current_file⟩
  else
    .ok s

/-- The `LF:` branch, applied to `line[3:]`. The right-hand side
`int(line[3:])` of the assignment is evaluated before its target, so a bad
literal raises `ValueError` before any `KeyError` can occur. -/
def lfStep (s : ParseState) (numStr : String) : Except PyError ParseState :=
  match pyInt numStr with
  | none => .error (.valueError numStr)
  | some n =>
    match s.current_file with
    | none => .error (.keyError none)
    | some cf =>
      match dictGet s.files cf with
      | none => .error (.keyError (some cf))
      | some d => .ok ⟨dictSet s.files cf ⟨n, d.lines_hit⟩, s.current_file⟩

/-- The `LH:` branch, applied to `line[3:]`; same shape as `lfStep`. -/
def lhStep (s : ParseState) (numStr : String) : Except PyError ParseState :=
  match pyInt numStr with
  | none => .error (.valueError numStr)
  | some n =>
    match s.current_file with
    | none => .error (.keyError none)
    | some cf =>
      match dictGet s.files cf with
      | none => .error (.keyError (some cf))
      | some d => .ok ⟨dictSet s.files cf ⟨d.lines_found, n⟩, s.current_file⟩

/-- The `if / elif` chain of the loop body, on the already stripped line. -/
def processStripped (s : ParseState) (line : String) : Except PyError ParseState :=
  if strStartsWith line "SF:" then sfStep s (strDrop line 3)
  else if strStartsWith line "DA:" then daStep s (pySplitComma (strDrop line 3))
  else if strStartsWith line "LF:" then lfStep s (strDrop line 3)
  else if strStartsWith line "LH:" then lhStep s (strDrop line 3)
  else .ok s

/-- One iteration of the `for line in f` loop of `analyze_lcov_file`:
`line = line.strip()` followed by the prefix dispatch. `.error` models an
uncaught exception. -/
def processLine (s : ParseState) (raw : String) : Except PyError ParseState :=
  processStripped s (pyStrip raw)

/-- A line that matches none of the four record prefixes after stripping:
the loop body leaves the state untouched on such a line. -/
def ignoredLine (raw : String) : Bool :=
  !(strStartsWith (pyStrip raw) "SF:" || strStartsWith (pyStrip raw) "DA:" ||
    strStartsWith (pyStrip raw) "LF:" || strStartsWith (pyStrip raw) "LH:")

/-- The whole `for line in f` loop. -/
def parseLines (s : ParseState) : List String → Except PyError ParseState
  | [] => .ok s
  | l :: ls =>
    match processLine s l with
    | .error e => .error e
    | .ok s' => parseLines s' ls

/-- `total_lines_found = sum(f['lines_found'] for f in files_coverage.values())`. -/
def totalLinesFound (files : Dict) : Int :=
  (files.map (fun pd => pd.2.lines_found)).sum

/-- `total_lines_hit = sum(f['lines_hit'] for f in files_coverage.values())`. -/
def totalLinesHit (files : Dict) : Int :=
  (files.map (fun pd => pd.2.lines_hit)).sum

/-- Round `a / b` (with `b > 0` at every use) to the nearest integer, ties
to even — the rounding used when formatting a float with one decimal. -/
def roundHalfEven (a b : Int) : Int :=
  let q := Int.fdiv a b
  let r := a - q * b
  if 2 * r < b then q
  else if b < 2 * r then q + 1
  else if Int.emod q 2 = 0 then q else q + 1

/-- Print `m` tenths as a decimal numeral with one fractional digit. -/
def fmtTenths (m : Nat) : String :=
  toString (m / 10) ++ "." ++ toString (m % 10)

/-- Python `f"{(hit / found) * 100:.1f}"`; see the module comment. -/
def fmtPct (hit found : Int) : String :=
  let n := roundHalfEven (1000 * hit) found
  if n < 0 then "-" ++ fmtTenths n.natAbs else fmtTenths n.natAbs

/-- The separator line `"=" * 80`. -/
def sep80 : String := String.mk (List.replicate 80 '=')

/-- The keys of the dict, in insertion order. -/
def dictKeys (files : Dict) : List String := files.map Prod.fst

/-- Code-point lexicographic `≤` on character lists: the order Python uses
to compare strings. -/
def charListLe : List Char → List Char → Bool
  | [], _ => true
  | _ :: _, [] => false
  | a :: as, b :: bs =>
    if a.toNat < b.toNat then true
    else if b.toNat < a.toNat then false
    else charListLe as bs

/-- Python's string order, as a `Prop`. -/
def pyLe (a b : String) : Prop := charListLe a.data b.data = true

instance : DecidableRel pyLe := fun a b => by unfold pyLe; infer_instance

/-- Python `sorted(...)` on a list of strings (code-point lexicographic;
any correct sort gives the same list as CPython's since keys are unique). -/
def pySorted (l : List String) : List String :=
  List.insertionSort pyLe l

/-- Whether the per-file loop prints an entry for path `p`:
the `data['lines_found'] > 0` test. -/
def visible (files : Dict) (p : String) : Bool :=
  match dictGet files p with
  | some d => decide (d.lines_found > 0)
  | none => false

/-- The lines printed by one iteration of the per-file loop. -/
def fileBlock (files : Dict) (p : String) : List String :=
  match dictGet files p with
  | some d =>
    if d.lines_found > 0 then
      [p, "  Lines: " ++ toString d.lines_hit ++ "/" ++ toString d.lines_found ++
        " (" ++ fmtPct d.lines_hit d.lines_found ++ "%)"]
    else []
  | none => []

/-- `List.flatMap`, local so its equations are fully under our control. -/
def concatMap (f : α → List β) : List α → List β
  | [] => []
  | a :: as => f a ++ concatMap f as

/-- The sorted paths that actually get a per-file block. -/
def printedPaths (files : Dict) : List String :=
  (pySorted (dictKeys files)).filter (visible files)

/-- The sorted paths whose entries are omitted from the per-file listing. -/
def hiddenPaths (files : Dict) : List String :=
  (pySorted (dictKeys files)).filter (fun p => !visible files p)

/-- The `lines_found` counter read through the dict, `0` for an absent key. -/
def foundOf (files : Dict) (p : String) : Int :=
  (dictGet files p).elim 0 FileData.lines_found

/-- The `lines_hit` counter read through the dict, `0` for an absent key. -/
def hitOf (files : Dict) (p : String) : Int :=
  (dictGet files p).elim 0 FileData.lines_hit

/-- Sum of `lines_found` over a list of paths. -/
def sumFoundOver (files : Dict) (ps : List String) : Int :=
  (ps.map (foundOf files)).sum

/-- Sum of `lines_hit` over a list of paths. -/
def sumHitOver (files : Dict) (ps : List String) : Int :=
  (ps.map (hitOf files)).sum

/-- The last printed line: the total, or the no-data message. -/
def totalSection (files : Dict) : List String :=
  if totalLinesFound files > 0 then
    ["Total Coverage: " ++ toString (totalLinesHit files) ++ "/" ++
      toString (totalLinesFound files) ++ " lines (" ++
      fmtPct (totalLinesHit files) (totalLinesFound files) ++ "%)"]
  else
    ["No coverage data found"]

/-- Everything the script prints (in order) once parsing has succeeded. -/
def renderOutput (files : Dict) : List String :=
  ["Test Coverage Report", sep80] ++
    concatMap (fileBlock files) (pySorted (dictKeys files)) ++
    [sep80] ++ totalSection files

/-- The whole of `analyze_lcov_file filename`. `contents` is the list of
lines of the file at `filename`, or `none` when the path does not exist
(in which case `open` raises `FileNotFoundError`). The result is the list
of printed lines, or the uncaught exception the run dies with. -/
def analyze_lcov_file (filename : String) (contents : Option (List String)) :
    Except PyError (List String) :=
  match contents with
  | none => .error (.fileNotFoundError filename)
  | some ls =>
    match parseLines initState ls with
    | .error e => .error e
    | .ok s => .ok (renderOutput s.files)

/-- The `__main__` block: `analyze_lcov_file("coverage/lcov.info")`, with no
exception handler anywhere around it. -/
def mainRun (contents : Option (List String)) : Except PyError (List String) :=
  analyze_lcov_file "coverage/lcov.info" contents

/-! ### Helper lemmas about the embedding -/

theorem data_append (a b : String) : (a ++ b).data = a.data ++ b.data := by
  cases a; cases b; rfl

theorem chListPrefix_self_append (p r : List Char) : chListPrefix p (p ++ r) = true := by
  induction p with
  | nil => rfl
  | cons a as ih => simp [chListPrefix, ih]

theorem strStartsWith_append_self (p r : String) : strStartsWith (p ++ r) p = true := by
  unfold strStartsWith
  rw [data_append]
  exact chListPrefix_self_append _ _

theorem processLine_eq (s : ParseState) (raw : String) :
    processLine s raw = processStripped s (pyStrip raw) := rfl

theorem processStripped_SF (s : ParseState) (path : String) :
    processStripped s ("SF:" ++ path) = sfStep s path := by
  obtain ⟨pd⟩ := path
  rfl

theorem processStripped_DA (s : ParseState) (body : String) :
    processStripped s ("DA:" ++ body) = daStep s (pySplitComma body) := by
  obtain ⟨bd⟩ := body
  rfl

theorem processStripped_LF (s : ParseState) (v : String) :
    processStripped s ("LF:" ++ v) = lfStep s v := by
  obtain ⟨vd⟩ := v
  rfl

theorem processStripped_LH (s : ParseState) (v : String) :
    processStripped s ("LH:" ++ v) = lhStep s v := by
  obtain ⟨vd⟩ := v
  rfl

theorem daStep_ok (files : Dict) (cfo : Option String) (cf : String) (d : FileData)
    (parts : List String) (n : Int)
    (hlen : parts.length ≥ 2) (hn : pyInt (parts.getD 1 "") = some n)
    (hcf : cfo = some cf) (hd : dictGet files cf = some d) :
    daStep ⟨files, cfo⟩ parts = .ok ⟨dictSet files cf
      ⟨d.lines_found + 1, d.lines_hit + (if n > 0 then 1 else 0)⟩, cfo⟩ := by
  subst hcf
  unfold daStep
  rw [if_pos hlen]
  simp only [hn, hd]

theorem lfStep_ok (files : Dict) (cfo : Option String) (cf : String) (d : FileData)
    (v : String) (n : Int)
    (hv : pyInt v = some n) (hcf : cfo = some cf)
    (hd : dictGet files cf = some d) :
    lfStep ⟨files, cfo⟩ v = .ok ⟨dictSet files cf ⟨n, d.lines_hit⟩, cfo⟩ := by
  subst hcf
  unfold lfStep
  simp only [hv, hd]

theorem lhStep_ok (files : Dict) (cfo : Option String) (cf : String) (d : FileData)
    (v : String) (n : Int)
    (hv : pyInt v = some n) (hcf : cfo = some cf)
    (hd : dictGet files cf = some d) :
    lhStep ⟨files, cfo⟩ v = .ok ⟨dictSet files cf ⟨d.lines_found, n⟩, cfo⟩ := by
  subst hcf
  unfold lhStep
  simp only [hv, hd]

theorem processLine_ignored (s : ParseState) (raw : String) (h : ignoredLine raw = true) :
    processLine s raw = .ok s := by
  unfold ignoredLine at h
  simp only [Bool.not_eq_true', Bool.or_eq_false_iff] at h
  obtain ⟨⟨⟨h1, h2⟩, h3⟩, h4⟩ := h
  unfold processLine processStripped
  rw [h1, h2, h3, h4]
  rfl

theorem parseLines_nil (s : ParseState) : parseLines s [] = .ok s := rfl

theorem parseLines_cons_ok (s s' : ParseState) (l : String) (ls : List String)
    (h : processLine s l = .ok s') :
    parseLines s (l :: ls) = parseLines s' ls := by
  simp only [parseLines, h]

theorem parseLines_cons_error (s : ParseState) (e : PyError) (l : String) (ls : List String)
    (h : processLine s l = .error e) :
    parseLines s (l :: ls) = .error e := by
  simp only [parseLines, h]

theorem parseLines_ignored (s : ParseState) (ls : List String)
    (h : ∀ l ∈ ls, ignoredLine l = true) :
    parseLines s ls = .ok s := by
  induction ls with
  | nil => rfl
  | cons l ls ih =>
    rw [parseLines_cons_ok s s l ls (processLine_ignored s l (h l (List.mem_cons_self l ls)))]
    exact ih fun x hx => h x (List.mem_cons_of_mem _ hx)

theorem dictGet_dictSet_self (d : Dict) (k : String) (v : FileData) :
    dictGet (dictSet d k v) k = some v := by
  induction d with
  | nil => simp [dictSet, dictGet]
  | cons hd tl ih =>
    obtain ⟨k', v'⟩ := hd
    by_cases hk : k' = k
    · subst hk
      simp [dictSet, dictGet]
    · simp [dictSet, dictGet, hk, ih]

theorem charListLe_total (x : List Char) : ∀ y, charListLe x y = true ∨ charListLe y x = true := by
  induction x with
  | nil =>
    intro y
    left
    rfl
  | cons a as ih =>
    intro y
    cases y with
    | nil => right; rfl
    | cons b bs =>
      rcases Nat.lt_trichotomy a.toNat b.toNat with h | h | h
      · left
        show (if a.toNat < b.toNat then true else _) = true
        rw [if_pos h]
      · have h1 : ¬ a.toNat < b.toNat := by omega
        have h2 : ¬ b.toNat < a.toNat := by omega
        have e1 : charListLe (a :: as) (b :: bs) = charListLe as bs := by
          show (if a.toNat < b.toNat then true else if b.toNat < a.toNat then false
            else charListLe as bs) = _
          rw [if_neg h1, if_neg h2]
        have e2 : charListLe (b :: bs) (a :: as) = charListLe bs as := by
          show (if b.toNat < a.toNat then true else if a.toNat < b.toNat then false
            else charListLe bs as) = _
          rw [if_neg h2, if_neg h1]
        rw [e1, e2]
        exact ih bs
      · right
        show (if b.toNat < a.toNat then true else _) = true
        rw [if_pos h]

theorem charListLe_trans (x : List Char) :
    ∀ y z, charListLe x y = true → charListLe y z = true → charListLe x z = true := by
  induction x with
  | nil =>
    intro y z _ _
    rfl
  | cons a as ih =>
    intro y z h1 h2
    cases y with
    | nil => exact absurd h1 (by simp [charListLe])
    | cons b bs =>
      cases z with
      | nil => exact absurd h2 (by simp [charListLe])
      | cons c cs =>
        revert h1 h2
        show (if a.toNat < b.toNat then true else if b.toNat < a.toNat then false
            else charListLe as bs) = true →
          (if b.toNat < c.toNat then true else if c.toNat < b.toNat then false
            else charListLe bs cs) = true →
          (if a.toNat < c.toNat then true else if c.toNat < a.toNat then false
            else charListLe as cs) = true
        split_ifs <;> intro h1 h2 <;>
          first
          | rfl
          | omega
          | exact ih bs cs h1 h2
          | exact (Bool.false_ne_true h1).elim
          | exact (Bool.false_ne_true h2).elim
          | exact h1.elim
          | exact h2.elim

instance : IsTotal String pyLe := ⟨fun a b => charListLe_total a.data b.data⟩

instance : IsTrans String pyLe := ⟨fun a b c => charListLe_trans a.data b.data c.data⟩

theorem sum_map_filter_split (g : String → Int) (q : String → Bool) (l : List String) :
    ((l.filter q).map g).sum + ((l.filter (fun a => !q a)).map g).sum = (l.map g).sum := by
  induction l with
  | nil => rfl
  | cons a l ih =>
    cases h : q a with
    | true =>
      simp only [List.filter_cons, h, Bool.not_true, if_pos, List.map_cons, List.sum_cons,
        if_neg, Bool.false_eq_true, not_false_iff, ite_true, ite_false]
      omega
    | false =>
      simp only [List.filter_cons, h, Bool.not_false, List.map_cons, List.sum_cons,
        Bool.false_eq_true, not_false_iff, ite_true, ite_false]
      omega

theorem sum_proj_keys (g : FileData → Int) (files : Dict) (h : (dictKeys files).Nodup) :
    ((dictKeys files).map (fun p => (dictGet files p).elim 0 g)).sum =
      (files.map (fun pd => g pd.2)).sum := by
  induction files with
  | nil => rfl
  | cons hd tl ih =>
    obtain ⟨p, d⟩ := hd
    simp only [dictKeys, List.map_cons] at h ⊢
    obtain ⟨hp, hnd⟩ := List.nodup_cons.mp h
    have h1 : (dictGet ((p, d) :: tl) p).elim 0 g = g d := by
      simp [dictGet]
    have h2 : (tl.map Prod.fst).map (fun q => (dictGet ((p, d) :: tl) q).elim 0 g) =
        (tl.map Prod.fst).map (fun q => (dictGet tl q).elim 0 g) := by
      apply List.map_congr_left
      intro q hq
      have hpq : ¬ p = q := fun e => hp (e ▸ hq)
      simp [dictGet, hpq]
    simp only [List.sum_cons, h1, h2]
    have ih' := ih hnd
    simp only [dictKeys] at ih'
    rw [ih']

theorem sum_map_pySorted (f : String → Int) (l : List String) :
    ((pySorted l).map f).sum = (l.map f).sum :=
  ((List.perm_insertionSort pyLe l).map f).sum_eq

theorem fileBlock_of_not_visible (files : Dict) (p : String) (h : visible files p = false) :
    fileBlock files p = [] := by
  unfold visible at h
  unfold fileBlock
  cases hd : dictGet files p with
  | none => rfl
  | some d =>
    rw [hd] at h
    have h' : ¬ d.lines_found > 0 := of_decide_eq_false h
    exact if_neg h'

theorem concatMap_fileBlock_filter (files : Dict) (l : List String) :
    concatMap (fileBlock files) l = concatMap (fileBlock files) (l.filter (visible files)) := by
  induction l with
  | nil => rfl
  | cons a l ih =>
    cases h : visible files a with
    | true =>
      simp only [concatMap, List.filter_cons, h, ite_true, ih]
    | false =>
      simp only [concatMap, List.filter_cons, h, Bool.false_eq_true, ite_false, ih,
        fileBlock_of_not_visible files a h, List.nil_append]

/-! ### The claims -/

/-- Claim C1: a `DA:`, `LF:`, or `LH:` record before any `SF:` record should
either fail with a `MalformedInputError` naming the offending line or be
skipped silently. The code does neither: it dies with an uncaught
`KeyError` on the `None` key (`files_coverage[None]`), which names no line
and is not a silent skip. This theorem records the actual behavior at such
inputs. -/
theorem C1_record_before_SF_keyerror :
    parseLines initState ["DA:1,1"] = .error (.keyError none) ∧
    parseLines initState ["LF:5"] = .error (.keyError none) ∧
    parseLines initState ["LH:5"] = .error (.keyError none) ∧
    analyze_lcov_file "coverage/lcov.info" (some ["DA:1,1"]) = .error (.keyError none) :=
  ⟨rfl, rfl, rfl, rfl⟩

/-- Claim C2: on a missing input file the program should abort with a clear
diagnostic and not terminate via an unhandled crash. The code has no
exception handler at all: `open` raises `FileNotFoundError` and it
propagates out of `__main__` uncaught (so the exit status is non-zero and
no report line is printed, but the termination is an unhandled crash).
This theorem records that the error reaches the top level with no output
produced. -/
theorem C2_missing_file_uncaught :
    mainRun none = .error (.fileNotFoundError "coverage/lcov.info") := rfl

/-- Claim C3 (counterexample): the claim says every malformed record other
than the fatal conditions degrades by omission without crashing, naming a
`DA:`/`LF:`/`LH:` line with a non-integer numeric field as an example. In
fact `int()` raises an uncaught `ValueError` there: on
`["SF:a.py", "DA:1,x"]` the run dies and prints nothing. -/
theorem C3_counterexample :
    analyze_lcov_file "coverage/lcov.info" (some ["SF:a.py", "DA:1,x"]) =
      .error (.valueError "x") := rfl

/-- Claim C3 (amended): a `DA:` line with fewer than 2 comma-separated
fields is skipped silently and contributes nothing, and lines matching no
record prefix are ignored; but a `DA:`, `LF:`, or `LH:` line whose numeric
field is not a valid integer literal raises an uncaught `ValueError` and
aborts the run. -/
theorem C3_amended :
    (∀ (s : ParseState) (raw body : String), pyStrip raw = "DA:" ++ body →
      (pySplitComma body).length < 2 → processLine s raw = .ok s) ∧
    (∀ (s : ParseState) (raw : String), ignoredLine raw = true → processLine s raw = .ok s) ∧
    analyze_lcov_file "coverage/lcov.info" (some ["SF:a.py", "LF:abc"]) =
      .error (.valueError "abc") := by
  refine ⟨?_, processLine_ignored, rfl⟩
  intro s raw body hstrip hlen
  rw [processLine_eq, hstrip, processStripped_DA]
  unfold daStep
  rw [if_neg (by omega)]

/-- Witness for C3: the amended claim applied at the short `DA:` line
`"DA:12"` (one field) and at the marker line `"end_of_record"`. -/
theorem C3_witness :
    processLine initState "DA:12" = .ok initState ∧
    processLine initState "end_of_record" = .ok initState :=
  ⟨C3_amended.1 initState "DA:12" "12" rfl (by decide),
   C3_amended.2.1 initState "end_of_record" (by decide)⟩

/-- Claim C4 (counterexample): the claim says the last `LF:`/`LH:` value
seen before the next `SF:` record or end of input determines the file's
final counts. But a well-formed `DA:` record after the last `LF:` still
increments the overwritten counter: on `SF:a.py, LF:10, DA:1,1` the final
`lines_found` is `11`, not the last `LF:` value `10`. -/
theorem C4_counterexample :
    parseLines initState ["SF:a.py", "LF:10", "DA:1,1"] =
      .ok ⟨[("a.py", ⟨11, 1⟩)], some "a.py"⟩ ∧
    ((11 : Int) ≠ 10) :=
  ⟨rfl, by decide⟩

/-- Claim C4 (amended): an `LF:` record overwrites (does not add to) the
current file's accumulated `lines_found`, an `LH:` record likewise
overwrites `lines_hit`, and the last `LF:` value before the next `SF:`
record or end of input determines the file's final count provided no other
record for that file follows it; `DA:` records occurring after it
increment from the overwritten value instead. -/
theorem C4_amended :
    (∀ (files : Dict) (cfo : Option String) (cf : String) (d : FileData) (raw v : String)
        (n : Int), pyStrip raw = "LF:" ++ v → pyInt v = some n → cfo = some cf →
      dictGet files cf = some d →
      processLine ⟨files, cfo⟩ raw = .ok ⟨dictSet files cf ⟨n, d.lines_hit⟩, cfo⟩) ∧
    (∀ (files : Dict) (cfo : Option String) (cf : String) (d : FileData) (raw v : String)
        (n : Int), pyStrip raw = "LH:" ++ v → pyInt v = some n → cfo = some cf →
      dictGet files cf = some d →
      processLine ⟨files, cfo⟩ raw = .ok ⟨dictSet files cf ⟨d.lines_found, n⟩, cfo⟩) ∧
    (∀ (files : Dict) (cf : String) (d : FileData) (raw v : String) (n : Int)
        (rest : List String), pyStrip raw = "LF:" ++ v → pyInt v = some n →
      dictGet files cf = some d → (∀ l ∈ rest, ignoredLine l = true) →
      parseLines ⟨files, some cf⟩ (raw :: rest) =
        .ok ⟨dictSet files cf ⟨n, d.lines_hit⟩, some cf⟩) := by
  refine ⟨?_, ?_, ?_⟩
  · intro files cfo cf d raw v n hstrip hv hcf hd
    rw [processLine_eq, hstrip, processStripped_LF]
    exact lfStep_ok files cfo cf d v n hv hcf hd
  · intro files cfo cf d raw v n hstrip hv hcf hd
    rw [processLine_eq, hstrip, processStripped_LH]
    exact lhStep_ok files cfo cf d v n hv hcf hd
  · intro files cf d raw v n rest hstrip hv hd hrest
    have hstep : processLine ⟨files, some cf⟩ raw =
        .ok ⟨dictSet files cf ⟨n, d.lines_hit⟩, some cf⟩ := by
      rw [processLine_eq, hstrip, processStripped_LF]
      exact lfStep_ok files (some cf) cf d v n hv rfl hd
    rw [parseLines_cons_ok _ _ _ _ hstep]
    exact parseLines_ignored _ _ hrest

/-- Witness for C4: the amended claim applied concretely — an `LF:10` after
accumulated counts `⟨3, 2⟩` overwrites `lines_found` to `10`, and trailing
ignored lines leave it as the final count. -/
theorem C4_witness :
    parseLines ⟨[("a.py", ⟨3, 2⟩)], some "a.py"⟩ ["LF:10", "end_of_record"] =
      .ok ⟨[("a.py", ⟨10, 2⟩)], some "a.py"⟩ :=
  C4_amended.2.2 [("a.py", ⟨3, 2⟩)] "a.py" ⟨3, 2⟩ "LF:10" "10" 10 ["end_of_record"]
    rfl rfl rfl (by decide)

/-- Claim C5: on Scenario A's input the program emits the per-file line
`Lines: 2/3 (66.7%)` (printed with the two-space indent of the renderer)
and the total line `Total Coverage: 2/3 lines (66.7%)`; and in general a
well-formed `DA:` record increments the current file's `lines_found` by 1
and increments `lines_hit` by 1 exactly when its hit count is positive. -/
theorem C5_scenario_A :
    analyze_lcov_file "coverage/lcov.info"
      (some ["SF:a.py", "DA:1,1", "DA:2,0", "DA:3,1", "end_of_record"]) =
      .ok ["Test Coverage Report", sep80, "a.py", "  Lines: 2/3 (66.7%)", sep80,
        "Total Coverage: 2/3 lines (66.7%)"] ∧
    pyStrip "  Lines: 2/3 (66.7%)" = "Lines: 2/3 (66.7%)" ∧
    (∀ (files : Dict) (cfo : Option String) (cf : String) (d : FileData) (raw body : String)
        (parts : List String) (hit : Int),
      pyStrip raw = "DA:" ++ body → pySplitComma body = parts → parts.length ≥ 2 →
      pyInt (parts.getD 1 "") = some hit → cfo = some cf → dictGet files cf = some d →
      processLine ⟨files, cfo⟩ raw = .ok ⟨dictSet files cf
        ⟨d.lines_found + 1, d.lines_hit + (if hit > 0 then 1 else 0)⟩, cfo⟩) := by
  refine ⟨rfl, rfl, ?_⟩
  intro files cfo cf d raw body parts hit hstrip hsplit hlen hhit hcf hd
  rw [processLine_eq, hstrip, processStripped_DA, hsplit]
  exact daStep_ok files cfo cf d parts hit hlen hhit hcf hd

/-- Witness for C5: the general `DA:` step applied concretely — `DA:1,1`
increments both counters, `DA:2,0` only `lines_found`. -/
theorem C5_witness :
    processLine ⟨[("a.py", ⟨0, 0⟩)], some "a.py"⟩ "DA:1,1" =
      .ok ⟨[("a.py", ⟨1, 1⟩)], some "a.py"⟩ ∧
    processLine ⟨[("a.py", ⟨1, 1⟩)], some "a.py"⟩ "DA:2,0" =
      .ok ⟨[("a.py", ⟨2, 1⟩)], some "a.py"⟩ :=
  ⟨C5_scenario_A.2.2 [("a.py", ⟨0, 0⟩)] (some "a.py") "a.py" ⟨0, 0⟩ "DA:1,1" "1,1"
      ["1", "1"] 1 rfl rfl (by decide) rfl rfl rfl,
   C5_scenario_A.2.2 [("a.py", ⟨1, 1⟩)] (some "a.py") "a.py" ⟨1, 1⟩ "DA:2,0" "2,0"
      ["2", "0"] 0 rfl rfl (by decide) rfl rfl rfl⟩

/-- Claim C6: the renderer lists file entries in lexicographic path order,
not insertion order: the printed paths are sorted, the per-file section of
the output is exactly the blocks of the sorted visible paths, and on the
Scenario B input (fed with `b.py` first, so insertion order differs)
`a.py` is printed before `b.py` with total
`Total Coverage: 7/8 lines (87.5%)`. -/
theorem C6_sorted_render :
    (∀ files : Dict, List.Sorted pyLe (printedPaths files)) ∧
    (∀ files : Dict, renderOutput files =
      ["Test Coverage Report", sep80] ++ concatMap (fileBlock files) (printedPaths files) ++
        [sep80] ++ totalSection files) ∧
    analyze_lcov_file "coverage/lcov.info"
      (some ["SF:b.py", "LF:5", "LH:5", "SF:a.py", "LF:3", "LH:2"]) =
      .ok ["Test Coverage Report", sep80, "a.py", "  Lines: 2/3 (66.7%)", "b.py",
        "  Lines: 5/5 (100.0%)", sep80, "Total Coverage: 7/8 lines (87.5%)"] := by
  refine ⟨?_, ?_, rfl⟩
  · intro files
    exact List.Pairwise.sublist (List.filter_sublist _) (List.sorted_insertionSort pyLe _)
  · intro files
    unfold renderOutput printedPaths
    rw [concatMap_fileBlock_filter]

/-- Witness for C6: sortedness of the printed paths at a concrete report
whose insertion order is reversed. -/
theorem C6_witness :
    List.Sorted pyLe (printedPaths [("b.py", ⟨5, 5⟩), ("a.py", ⟨3, 2⟩)]) :=
  C6_sorted_render.1 [("b.py", ⟨5, 5⟩), ("a.py", ⟨3, 2⟩)]

/-- Claim C7: a file entry with `lines_found = 0` gets no per-file output
at all (its block is empty and its path is not among the printed paths),
yet the totals sum over all entries: they split as the sum over printed
paths plus the sum over hidden paths. -/
theorem C7_zero_found_omitted :
    (∀ (files : Dict) (p : String) (d : FileData), dictGet files p = some d →
      d.lines_found = 0 → fileBlock files p = [] ∧ p ∉ printedPaths files) ∧
    (∀ files : Dict, (dictKeys files).Nodup →
      totalLinesFound files =
        sumFoundOver files (printedPaths files) + sumFoundOver files (hiddenPaths files) ∧
      totalLinesHit files =
        sumHitOver files (printedPaths files) + sumHitOver files (hiddenPaths files)) := by
  constructor
  · intro files p d hget hfound
    have hvis : visible files p = false := by
      unfold visible
      rw [hget]
      show decide (d.lines_found > 0) = false
      rw [hfound]
      decide
    constructor
    · exact fileBlock_of_not_visible files p hvis
    · intro hmem
      have := List.of_mem_filter hmem
      rw [hvis] at this
      exact Bool.false_ne_true this
  · intro files hnd
    constructor
    · have h1 : sumFoundOver files (dictKeys files) = totalLinesFound files :=
        sum_proj_keys FileData.lines_found files hnd
      have h2 : sumFoundOver files (pySorted (dictKeys files)) =
          sumFoundOver files (dictKeys files) :=
        sum_map_pySorted (foundOf files) (dictKeys files)
      have h3 : sumFoundOver files (printedPaths files) + sumFoundOver files (hiddenPaths files) =
          sumFoundOver files (pySorted (dictKeys files)) :=
        sum_map_filter_split (foundOf files) (visible files) (pySorted (dictKeys files))
      rw [h3, h2, h1]
    · have h1 : sumHitOver files (dictKeys files) = totalLinesHit files :=
        sum_proj_keys FileData.lines_hit files hnd
      have h2 : sumHitOver files (pySorted (dictKeys files)) =
          sumHitOver files (dictKeys files) :=
        sum_map_pySorted (hitOf files) (dictKeys files)
      have h3 : sumHitOver files (printedPaths files) + sumHitOver files (hiddenPaths files) =
          sumHitOver files (pySorted (dictKeys files)) :=
        sum_map_filter_split (hitOf files) (visible files) (pySorted (dictKeys files))
      rw [h3, h2, h1]

/-- Witness for C7: applied at a two-entry report in which `a.py` has
`lines_found = 0` — no block, not printed, but both conjuncts discharged. -/
theorem C7_witness :
    fileBlock [("a.py", ⟨0, 0⟩), ("b.py", ⟨2, 1⟩)] "a.py" = [] ∧
    "a.py" ∉ printedPaths [("a.py", ⟨0, 0⟩), ("b.py", ⟨2, 1⟩)] :=
  C7_zero_found_omitted.1 [("a.py", ⟨0, 0⟩), ("b.py", ⟨2, 1⟩)] "a.py" ⟨0, 0⟩ rfl rfl

/-- Claim C8: the parser does not enforce `lines_hit <= lines_found`: on
`SF:a.py, LF:2, LH:4` the resulting entry has `lines_hit = 4 > 2 =
lines_found`, no error is raised, and the renderer prints the entry with a
percentage above 100%. -/
theorem C8_hit_exceeds_found :
    parseLines initState ["SF:a.py", "LF:2", "LH:4"] =
      .ok ⟨[("a.py", ⟨2, 4⟩)], some "a.py"⟩ ∧
    ((⟨2, 4⟩ : FileData).lines_hit > (⟨2, 4⟩ : FileData).lines_found) ∧
    analyze_lcov_file "coverage/lcov.info" (some ["SF:a.py", "LF:2", "LH:4"]) =
      .ok ["Test Coverage Report", sep80, "a.py", "  Lines: 4/2 (200.0%)", sep80,
        "Total Coverage: 4/2 lines (200.0%)"] :=
  ⟨rfl, by decide, rfl⟩

/-- Claim C9 (counterexample): the claim says `SF:  a.py  ` and `SF:a.py`
create the same entry key `a.py`. In fact only the whole line is stripped,
so `SF:  a.py  ` creates the key `"  a.py"` (leading spaces kept) and no
entry under `"a.py"` exists. -/
theorem C9_counterexample :
    parseLines initState ["SF:  a.py  "] = .ok ⟨[("  a.py", ⟨0, 0⟩)], some "  a.py"⟩ ∧
    dictGet [("  a.py", (⟨0, 0⟩ : FileData))] "a.py" = none :=
  ⟨rfl, rfl⟩

/-- Claim C9 (amended): for every `SF:` line, the parser strips the whole
line of surrounding whitespace and records everything after the `SF:`
prefix as the entry key — trailing whitespace is trimmed but whitespace
between the colon and the path is kept — sets `current_file` to that key
and initializes the entry's counters to 0. -/
theorem C9_amended :
    (∀ (s : ParseState) (raw path : String), pyStrip raw = "SF:" ++ path →
      processLine s raw = .ok ⟨dictSet s.files path ⟨0, 0⟩, some path⟩ ∧
      dictGet (dictSet s.files path ⟨0, 0⟩) path = some ⟨0, 0⟩) ∧
    parseLines initState ["SF:a.py"] = .ok ⟨[("a.py", ⟨0, 0⟩)], some "a.py"⟩ ∧
    parseLines initState ["SF:  a.py  "] = .ok ⟨[("  a.py", ⟨0, 0⟩)], some "  a.py"⟩ := by
  refine ⟨?_, rfl, rfl⟩
  intro s raw path hstrip
  constructor
  · rw [processLine_eq, hstrip, processStripped_SF]
    rfl
  · exact dictGet_dictSet_self s.files path ⟨0, 0⟩

/-- Witness for C9: the amended claim applied at the line `"SF:c.py"`. -/
theorem C9_witness :
    processLine initState "SF:c.py" = .ok ⟨[("c.py", ⟨0, 0⟩)], some "c.py"⟩ :=
  (C9_amended.1 initState "SF:c.py" "c.py" rfl).1

/-- Claim C10: `LF:`/`LH:` values are parsed as signed integers, so
`LF:-5` makes `b.py`'s `lines_found` equal to `-5`; that entry is omitted
from the per-file listing (`visible` is false) but `-5` still flows into
`total_lines_found`, which becomes `-3 ≤ 0`, so the run prints `a.py`'s
coverage line and then `No coverage data found` instead of a total line. -/
theorem C10_negative_LF :
    parseLines initState ["SF:a.py", "LF:2", "LH:1", "SF:b.py", "LF:-5"] =
      .ok ⟨[("a.py", ⟨2, 1⟩), ("b.py", ⟨-5, 0⟩)], some "b.py"⟩ ∧
    totalLinesFound [("a.py", (⟨2, 1⟩ : FileData)), ("b.py", ⟨-5, 0⟩)] = -3 ∧
    visible [("a.py", (⟨2, 1⟩ : FileData)), ("b.py", ⟨-5, 0⟩)] "b.py" = false ∧
    analyze_lcov_file "coverage/lcov.info"
      (some ["SF:a.py", "LF:2", "LH:1", "SF:b.py", "LF:-5"]) =
      .ok ["Test Coverage Report", sep80, "a.py", "  Lines: 1/2 (50.0%)", sep80,
        "No coverage data found"] :=
  ⟨rfl, rfl, rfl, rfl⟩

